import Mathlib

/-!
Verification development for the sat-forum-responder service.

This file gives a shallow embedding, in Lean, of the parts of the code that
the specification talks about:

* the URL detector (src/app/url_detector.py),
* the forum-post processing pipeline (src/forum_processor.py),
* the save/posting logic (ForumProcessor.save_results and
  ForumProcessor.should-post helper),
* the background worker (webhook_receiver.process_webhook_background),
* the bounded processing queue (webhook_receiver.py),
* the per-job image transcription cache (src/app/image_transcriber.py).

Python dictionaries are modelled as association lists of PyVal values, with
Python truthiness; external collaborators (the LLM client, Airtable, the
forum-post client, Teams) are modelled as oracle values recording only the
data the pipeline inspects, and every external invocation is recorded in an
explicit call trace.  Code paths on which the Python code raises an
exception are modelled with an Except monad; the blanket try/except
handlers of the source are modelled by matching on the error case exactly
where the source catches.
-/

/-- A Python/JSON value, as produced by json.loads in the source.  Dicts are
association lists (insertion order, unique keys in practice); numbers are
integers, which suffices for every field the pipeline inspects. -/
inductive PyVal where
  | null
  | bool (b : Bool)
  | str (s : String)
  | num (n : Int)
  | arr (xs : List PyVal)
  | obj (fields : List (String × PyVal))

/-- A Python dict with string keys, the shape of every payload and of every
parsed LLM response in the source. -/
abbrev PyDict := List (String × PyVal)

/-- Python truthiness: None, False, empty string, 0, empty list and empty
dict are falsy; everything else is truthy. -/
def PyVal.truthy : PyVal → Bool
  | .null => false
  | .bool b => b
  | .str s => !(s = "")
  | .num n => !(n = 0)
  | .arr xs => !xs.isEmpty
  | .obj fs => !fs.isEmpty

/-- First-match association-list lookup, the semantics of a Python dict
access for the dicts the service builds (keys are unique). -/
def lookupStr {α : Type} : List (String × α) → String → Option α
  | [], _ => none
  | (k, v) :: rest, key => if k = key then some v else lookupStr rest key

/-- Python d.get(key, default). -/
def jget (fs : PyDict) (k : String) (d : PyVal) : PyVal :=
  match lookupStr fs k with
  | some v => v
  | none => d

/-- Python x or y (value-returning, left-biased on truthiness). -/
def pyOr (a b : PyVal) : PyVal := if a.truthy then a else b

/-- Python equality test of a value against a string literal. -/
def PyVal.eqStr : PyVal → String → Bool
  | .str s, t => s = t
  | _, _ => false

/-- Python equality test of a value against True (in Python, 1 == True). -/
def PyVal.pyEqTrue : PyVal → Bool
  | .bool b => b
  | .num n => n = 1
  | _ => false

/-- ASCII upper-casing of one character, the fragment of str.upper() the
source relies on (validation verdicts are ASCII). -/
def ucChar (c : Char) : Char :=
  if c = 'a' then 'A' else if c = 'b' then 'B' else if c = 'c' then 'C'
  else if c = 'd' then 'D' else if c = 'e' then 'E' else if c = 'f' then 'F'
  else if c = 'g' then 'G' else if c = 'h' then 'H' else if c = 'i' then 'I'
  else if c = 'j' then 'J' else if c = 'k' then 'K' else if c = 'l' then 'L'
  else if c = 'm' then 'M' else if c = 'n' then 'N' else if c = 'o' then 'O'
  else if c = 'p' then 'P' else if c = 'q' then 'Q' else if c = 'r' then 'R'
  else if c = 's' then 'S' else if c = 't' then 'T' else if c = 'u' then 'U'
  else if c = 'v' then 'V' else if c = 'w' then 'W' else if c = 'x' then 'X'
  else if c = 'y' then 'Y' else if c = 'z' then 'Z' else c

/-- Python s.upper() on ASCII strings. -/
def pyUpper (s : String) : String := String.mk (s.toList.map ucChar)

/-- ASCII lower-casing of one character, the fragment of str.lower() and of
re.IGNORECASE matching the source relies on (URL patterns are ASCII). -/
def lcChar (c : Char) : Char :=
  if c = 'A' then 'a' else if c = 'B' then 'b' else if c = 'C' then 'c'
  else if c = 'D' then 'd' else if c = 'E' then 'e' else if c = 'F' then 'f'
  else if c = 'G' then 'g' else if c = 'H' then 'h' else if c = 'I' then 'i'
  else if c = 'J' then 'j' else if c = 'K' then 'k' else if c = 'L' then 'l'
  else if c = 'M' then 'm' else if c = 'N' then 'n' else if c = 'O' then 'o'
  else if c = 'P' then 'p' else if c = 'Q' then 'q' else if c = 'R' then 'r'
  else if c = 'S' then 's' else if c = 'T' then 't' else if c = 'U' then 'u'
  else if c = 'V' then 'v' else if c = 'W' then 'w' else if c = 'X' then 'x'
  else if c = 'Y' then 'y' else if c = 'Z' then 'z' else c

/-- Lower-casing of a character list. -/
def lowerL (cs : List Char) : List Char := cs.map lcChar

/-- Python s.lower() on ASCII strings, the deduplication key of the URL
detector. -/
def pyLowerS (s : String) : String := String.mk (lowerL s.toList)

/-- A character that terminates a URL match: the regex character class in
every pattern of URLDetector.URL_PATTERNS excludes whitespace, angle
brackets, double quote (code 34) and single quote (code 39). -/
def isStopChar (c : Char) : Bool :=
  c = ' ' || c = '\t' || c = '\n' || c = '\r' || c.toNat = 11 || c.toNat = 12 ||
  c = '<' || c = '>' || c.toNat = 34 || c.toNat = 39

/-- Case-insensitive literal match at the head of the text: pat is a
lower-case pattern; on success returns the consumed original characters and
the rest of the text. -/
def matchLit : List Char → List Char → Option (List Char × List Char)
  | [], cs => some ([], cs)
  | _ :: _, [] => none
  | p :: ps, c :: cs =>
      if lcChar c = p then
        match matchLit ps cs with
        | some (m, r) => some (c :: m, r)
        | none => none
      else none

/-- The literal heads of URLDetector.URL_PATTERNS, in alternation order.
Each source pattern is a literal head followed by one-or-more non-stop
characters; the first source pattern (an optional s after http) expands to
the two ordered literals the regex engine tries. -/
def urlPatHeads : List String :=
  [ "https://", "http://",
    "www.",
    "drive.google.com/", "docs.google.com/", "sheets.google.com/",
    "slides.google.com/", "forms.google.com/",
    "bit.ly/", "tinyurl.com/", "goo.gl/", "t.co/", "ow.ly/", "is.gd/",
    "buff.ly/", "rb.gy/", "cutt.ly/", "shorturl.at/",
    "dropbox.com/", "onedrive.live.com/", "1drv.ms/", "box.com/",
    "icloud.com/",
    "imgur.com/", "i.imgur.com/", "imgbb.com/", "postimg.cc/",
    "flickr.com/", "prnt.sc/", "gyazo.com/",
    "youtube.com/", "youtu.be/", "vimeo.com/", "dailymotion.com/",
    "scribd.com/", "slideshare.net/", "academia.edu/", "researchgate.net/",
    "pastebin.com/", "hastebin.com/" ]

/-- The same pattern heads as character lists. -/
def urlPatHeadsL : List (List Char) := urlPatHeads.map String.toList

/-- Try the given pattern heads, in order, at the current position: a head
must match case-insensitively and be followed by a non-empty greedy run of
non-stop characters (the one-or-more character class of every pattern).
Returns the full matched text and the remaining text. -/
def tryPats : List (List Char) → List Char → Option (List Char × List Char)
  | [], _ => none
  | pat :: pats, cs =>
      match matchLit pat cs with
      | some (m, rest) =>
          let run := rest.takeWhile (fun c => !isStopChar c)
          if run.isEmpty then tryPats pats cs
          else some (m ++ run, rest.dropWhile (fun c => !isStopChar c))
      | none => tryPats pats cs

/-- One alternation attempt of the combined compiled regex at the current
position. -/
def tryAlts (cs : List Char) : Option (List Char × List Char) :=
  tryPats urlPatHeadsL cs

/-- The scanning loop of re.findall over the combined pattern: at each
position try the alternation; on a match emit it and continue after it,
otherwise advance one character.  Fuel is the text length, which is
sufficient because every match consumes at least one character. -/
def scanAux : Nat → List Char → List (List Char)
  | 0, _ => []
  | _ + 1, [] => []
  | fuel + 1, c :: cs =>
      match tryAlts (c :: cs) with
      | some (m, rest) => m :: scanAux fuel rest
      | none => scanAux fuel cs

/-- All URL matches of the text, in order (URLDetector.url_regex.findall;
the per-match group flattening and strip() of the source are identities
here because each match is exactly one whitespace-free group). -/
def scanUrls (cs : List Char) : List (List Char) := scanAux cs.length cs

/-- URLDetector.IMAGE_EXTENSIONS. -/
def IMAGE_EXTENSIONS : List String :=
  [".png", ".jpg", ".jpeg", ".gif", ".webp", ".svg", ".bmp", ".tiff"]

/-- The image extensions as character lists. -/
def imageExtsL : List (List Char) := IMAGE_EXTENSIONS.map String.toList

/-- URLDetector._is_image_url: lower-case the URL, drop everything from the
first question mark (the query string), and test for a known image
extension suffix. -/
def isImageUrlL (u : List Char) : Bool :=
  imageExtsL.any (fun e => e.isSuffixOf ((lowerL u).takeWhile (fun c => !(c = '?'))))

/-- The deduplication loop of URLDetector.detect_urls with
exclude_images=True (the only call site): keep the first occurrence of each
case-insensitive URL, skipping image URLs (which are never added to the
seen set). -/
def dedupUrls : List (List Char) → List (List Char) → List (List Char)
  | [], _ => []
  | u :: rest, seen =>
      if lowerL u ∈ seen then dedupUrls rest seen
      else if isImageUrlL u then dedupUrls rest seen
      else u :: dedupUrls rest (lowerL u :: seen)

/-- URLDetector.detect_urls on a character list. -/
def detectUrlsL (cs : List Char) : List (List Char) :=
  dedupUrls (scanUrls cs) []

/-- URLDetector.detect_urls. -/
def detect_urls (s : String) : List String :=
  (detectUrlsL s.toList).map String.mk

/-- The second deduplication loop of URLDetector.check_forum_data (no image
exclusion: image URLs were already removed per field). -/
def dedupKeepFirst : List (List Char) → List (List Char) → List (List Char)
  | [], _ => []
  | u :: rest, seen =>
      if lowerL u ∈ seen then dedupKeepFirst rest seen
      else u :: dedupKeepFirst rest (lowerL u :: seen)

/-- detect_urls applied to a field value: the source calls it only on
truthy values; a truthy non-string raises TypeError inside re.findall. -/
def detectUrlsValE (v : PyVal) : Except String (List (List Char)) :=
  match v with
  | .str s => .ok (detectUrlsL s.toList)
  | _ => .error "TypeError"

/-- URLDetector.check_forum_data: scan forumPostText (falling back to
ForumPostText) and parentPostQuery, concatenate, deduplicate
case-insensitively, and report whether anything was found. -/
def check_forum_dataE (fd : PyDict) : Except String (Bool × List String) :=
  let fpt := pyOr (jget fd "forumPostText" (.str "")) (jget fd "ForumPostText" (.str ""))
  match (if fpt.truthy then detectUrlsValE fpt else .ok []) with
  | .error e => .error e
  | .ok urls1 =>
    let ppq := jget fd "parentPostQuery" (.str "")
    match (if ppq.truthy then detectUrlsValE ppq else .ok []) with
    | .error e => .error e
    | .ok urls2 =>
      let unique := dedupKeepFirst (urls1 ++ urls2) []
      .ok (decide (0 < unique.length), unique.map String.mk)

/-- One recorded external invocation made on behalf of a job. -/
inductive CallKind where
  | imageCall
  | a1Call
  | a2Call
  | toolCall (key : String)
  | formatterCall
  | airtableCall
  | forumPostCall
  | teamsCall
  deriving DecidableEq, Repr

/-- Behaviour of the external collaborators during one job, as much of it
as the pipeline inspects.  Each classifier/tool/formatter stage is the pair
of the call_agent outcome (none is a call that failed after its retries)
and the parse_json_response outcome (none is unparsable text). -/
structure Oracles where
  image_total : Nat
  a1 : Option (Option PyDict)
  a2 : Option (Option PyDict)
  tool : Option (Option PyDict)
  fmt : Option (Option PyDict)

/-- The results accumulator of ForumProcessor.process_forum_post, with the
fields the specification claims are about.  tool_parsed mirrors the parsed
entry of the tool_result dict (some none: the tool call succeeded but its
output was unparsable).  image_stats is the total_images statistic, none
while image_processing_stats is still None. -/
structure PResults where
  correlation_id : PyVal
  forum_data : PyDict
  image_stats : Option Nat
  a1_parsed : Option PyDict
  a2_parsed : Option PyDict
  tool_parsed : Option (Option PyDict)
  final_response : PyVal
  final_response_html : PyVal
  hil_flag : Bool
  processing_status : String
  url_check : Bool
  urls_list : List String

/-- The results dict as initialized at the top of process_forum_post. -/
def initResults (fd : PyDict) : PResults :=
  { correlation_id := pyOr (jget fd "correlationId" .null) (jget fd "Forum_Corr_ID" .null)
  , forum_data := fd
  , image_stats := none
  , a1_parsed := none
  , a2_parsed := none
  , tool_parsed := none
  , final_response := .null
  , final_response_html := .null
  , hil_flag := false
  , processing_status := "pending"
  , url_check := false
  , urls_list := [] }

/-- ForumProcessor._run_classifier: returns the parsed output only when the
call succeeded and the parse produced a truthy dict; otherwise None. -/
def run_classifier (o : Option (Option PyDict)) : Option PyDict :=
  match o with
  | some (some parsed) => if (PyVal.obj parsed).truthy then some parsed else none
  | _ => none

/-- The tool_mapping dict of process_forum_post, combined with the truthy
check on the looked-up tool key. -/
def tool_mapping_get (c : PyVal) : Option String :=
  match c with
  | .str s =>
      if s = "Genuine_Doubt" then some "tool_3"
      else if s = "Pointing_Out_Corrections" then some "tool_4"
      else if s = "Variation_of_Question" then some "tool_5"
      else if s = "Alternate_Approach" then some "tool_6"
      else none
  | _ => none

/-- The named response parts joined in the multi-part extraction branch. -/
def RESPONSE_PART_KEYS : List String :=
  ["greeting", "main_response", "worked_solution", "comparison_to_official", "closing"]

/-- The test: the key content is present in the response object and its
value is truthy. -/
def content_lookup (robj : PyDict) : Option PyVal :=
  match lookupStr robj "content" with
  | some c => if c.truthy then some c else none
  | none => none

/-- The present-and-truthy named parts of the response object, in key
order. -/
def collectParts (robj : PyDict) : List PyVal :=
  RESPONSE_PART_KEYS.filterMap (fun k =>
    match lookupStr robj k with
    | some v => if v.truthy then some v else none
    | none => none)

/-- Require every part to be a string, as str.join does. -/
def asStrings : List PyVal → Option (List String)
  | [] => some []
  | .str s :: rest =>
      match asStrings rest with
      | some ss => some (s :: ss)
      | none => none
  | _ => none

/-- The join of the response parts with blank lines; a non-string part
raises TypeError, as str.join does. -/
def joinPartsE (ps : List PyVal) : Except String String :=
  match asStrings ps with
  | some ss => .ok (String.intercalate "\n\n" ss)
  | none => .error "TypeError"

/-- The response-extraction block of process_forum_post (after the tool
stage): a nested response dict with truthy content wins; else the named
parts joined by blank lines; else a truthy response_html (which also fills
final_response_html); else Response, else response, else the empty string.
Returns (final_response, final_response_html). -/
def extract_response (p : PyDict) : Except String (PyVal × PyVal) :=
  match jget p "response" .null with
  | .obj robj =>
      match content_lookup robj with
      | some c => .ok (c, .null)
      | none =>
          match joinPartsE (collectParts robj) with
          | .ok s => .ok (.str s, .null)
          | .error e => .error e
  | _ =>
      let rh := jget p "response_html" .null
      if rh.truthy then .ok (rh, rh)
      else .ok (jget p "Response" (jget p "response" (.str "")), .null)

/-- The HIL-flag disjunction of process_forum_post, with Python
left-to-right short-circuit: the metadata lookups are evaluated only when
the three flag tests are false, and raise AttributeError when the metadata
value is not a dict. -/
def compute_hil_flag (p : PyDict) : Except String Bool :=
  if (jget p "Exception_Flag" .null).eqStr "Yes" then .ok true
  else if (jget p "exception_flag" .null).pyEqTrue then .ok true
  else if (jget p "exception_flag" .null).eqStr "Yes" then .ok true
  else
    match jget p "metadata" (.obj []) with
    | .obj m =>
        .ok ((jget m "hil_escalation" .null).pyEqTrue
              || (jget m "hil_escalation" .null).eqStr "true")
    | _ => .error "AttributeError"

/-- ForumProcessor._format_to_html: succeeds only when the call and the
parse succeeded, the parsed dict is truthy and carries a response_html
key. -/
def format_to_html (o : Option (Option PyDict)) : Option PyVal :=
  match o with
  | some (some parsed) =>
      if (PyVal.obj parsed).truthy then
        match lookupStr parsed "response_html" with
        | some v => some v
        | none => none
      else none
  | _ => none

/-- The tail of process_forum_post after the specialized tool call:
response extraction, optional HTML formatting, and the HIL decision.  A
raise in extraction or in the HIL check is caught by the blanket handler of
process_forum_post, which returns the results accumulated so far with
status error. -/
def finish_after_tool (O : Oracles) (r : PResults) (tr : List CallKind)
    (parsedOpt : Option PyDict) : PResults × List CallKind :=
  match parsedOpt with
  | none => ({ r with processing_status := "error" }, tr)
  | some p =>
    match extract_response p with
    | .error _ => ({ r with processing_status := "error" }, tr)
    | .ok (fr, fh) =>
      let step4 : PyVal × PyVal × List CallKind :=
        if fr.truthy && !fh.truthy then
          match format_to_html O.fmt with
          | some h => (fr, h, tr ++ [CallKind.formatterCall])
          | none => (fr, fr, tr ++ [CallKind.formatterCall])
        else if !fr.truthy then (fr, .str "", tr)
        else (fr, fh, tr)
      match step4 with
      | (fr2, fh2, tr2) =>
        let r2 := { r with final_response := fr2, final_response_html := fh2 }
        match compute_hil_flag p with
        | .error _ => ({ r2 with processing_status := "error" }, tr2)
        | .ok true => ({ r2 with hil_flag := true, processing_status := "hil_exception" }, tr2)
        | .ok false => ({ r2 with processing_status := "completed" }, tr2)

/-- ForumProcessor.process_forum_post: URL guard, image processing, triage,
deep classification, tool routing, specialized tool, extraction/formatting
and the HIL decision, with the accumulated external-call trace.  The
processed forum data feeds only prompt construction, which the stage
oracles abstract, so only the image-processing call and its statistics are
recorded. -/
def process_forum_post (O : Oracles) (fd : PyDict) : PResults × List CallKind :=
  let r0 := initResults fd
  match check_forum_dataE fd with
  | .error _ => ({ r0 with processing_status := "error" }, [])
  | .ok (hasUrls, urls) =>
    let r1 := { r0 with url_check := hasUrls, urls_list := urls }
    if hasUrls then ({ r1 with processing_status := "url_detected" }, [])
    else
      let r2 := { r1 with image_stats := some O.image_total }
      let tr1 := [CallKind.imageCall, CallKind.a1Call]
      match run_classifier O.a1 with
      | none => ({ r2 with processing_status := "error" }, tr1)
      | some p1 =>
        let r3 := { r2 with a1_parsed := some p1 }
        if !(jget p1 "classification" .null).eqStr "SM_Doubt" then
          ({ r3 with hil_flag := true, processing_status := "hil_exception" }, tr1)
        else
          let tr2 := tr1 ++ [CallKind.a2Call]
          match run_classifier O.a2 with
          | none => ({ r3 with processing_status := "error" }, tr2)
          | some p2 =>
            let r4 := { r3 with a2_parsed := some p2 }
            match tool_mapping_get (jget p2 "classification" .null) with
            | none => ({ r4 with processing_status := "error" }, tr2)
            | some toolKey =>
              let tr3 := tr2 ++ [CallKind.toolCall toolKey]
              match O.tool with
              | none => ({ r4 with processing_status := "error" }, tr3)
              | some parsedOpt =>
                finish_after_tool O { r4 with tool_parsed := some parsedOpt } tr3 parsedOpt

/-- ForumProcessor posting-decision helper: never post unless the run
completed; for Pointing_Out_Corrections post only when the upper-cased
validation verdict is INVALID.  The error cases mirror the AttributeErrors
Python raises on a missing tool result, an unparsed tool output, a non-dict
validation_result, or a non-string verdict; they are caught by the
save_results handler. -/
def should_post_to_forum (r : PResults) : Except String Bool :=
  if !(r.processing_status = "completed" : Bool) then .ok false
  else
    let a2c : PyVal :=
      match r.a2_parsed with
      | some p => if (PyVal.obj p).truthy then jget p "classification" .null else .null
      | none => .null
    if !a2c.truthy then .ok false
    else if a2c.eqStr "Pointing_Out_Corrections" then
      match r.tool_parsed with
      | none => .error "AttributeError"
      | some none => .error "AttributeError"
      | some (some p) =>
        match jget p "validation_result" (.obj []) with
        | .obj vr =>
            match jget vr "classification" (.str "") with
            | .str s => if pyUpper s = "INVALID" then .ok true else .ok false
            | _ => .error "AttributeError"
        | _ => .error "AttributeError"
    else .ok true

/-- Behaviour of the collaborators used by save_results. -/
structure SaveOracles where
  airtable_ok : Bool
  forum_configured : Bool
  forum_ok : Bool
  forum_error_msg : String
  teams_configured : Bool
  teams_ok : Bool

/-- The save_status dict of ForumProcessor.save_results. -/
structure SaveStatus where
  airtable_saved : Bool
  forum_post_status : Option String
  forum_post_error : Option String
  teams_notified : Bool
  deriving DecidableEq, Repr

/-- save_status as initialized at the top of save_results. -/
def initSaveStatus : SaveStatus :=
  { airtable_saved := false
  , forum_post_status := none
  , forum_post_error := none
  , teams_notified := false }

/-- ForumProcessor.save_results.  The very first use of the results record
reads image_processing_stats.get, which raises AttributeError when the
statistics are still None (every url-detected record, and every record that
errored before image processing); the blanket handler then returns the
untouched save_status, so no Airtable, forum or Teams call happens.
Otherwise: error records only notify Teams; all other records are upserted
to Airtable, then the posting decision runs (its AttributeError aborts the
rest), then the forum post and the Teams notification. -/
def save_results (so : SaveOracles) (r : PResults) : SaveStatus × List CallKind :=
  match r.image_stats with
  | none => (initSaveStatus, [])
  | some _ =>
    if r.processing_status = "error" then
      if so.teams_configured then
        ({ initSaveStatus with teams_notified := so.teams_ok }, [CallKind.teamsCall])
      else (initSaveStatus, [])
    else
      let st1 := { initSaveStatus with airtable_saved := so.airtable_ok }
      let tr1 := [CallKind.airtableCall]
      match should_post_to_forum r with
      | .error _ => (st1, tr1)
      | .ok shouldPost =>
        let step : SaveStatus × List CallKind :=
          if shouldPost && r.final_response_html.truthy && so.forum_configured then
            if so.forum_ok then
              ({ st1 with forum_post_status := some "posted" }, tr1 ++ [CallKind.forumPostCall])
            else
              ({ st1 with forum_post_status := some "failed"
                        , forum_post_error := some so.forum_error_msg },
               tr1 ++ [CallKind.forumPostCall])
          else if r.processing_status = "hil_exception" then
            ({ st1 with forum_post_status := some "skipped_hil" }, tr1)
          else if !shouldPost && r.processing_status = "completed" then
            ({ st1 with forum_post_status := some "skipped_validation" }, tr1)
          else
            ({ st1 with forum_post_status := some "skipped" }, tr1)
        if so.teams_configured then
          ({ step.1 with teams_notified := so.teams_ok }, step.2 ++ [CallKind.teamsCall])
        else step

/-- The terminal ledger (webhook database) update of one background-worker
iteration. -/
structure LedgerUpdate where
  status : String
  error_message : Option String
  deriving DecidableEq, Repr

/-- webhook_receiver.process_webhook_background: run the pipeline, read the
image statistics (an AttributeError here jumps to the handler, which
records status error with the fault message), otherwise save and record
the pipeline status. -/
def process_webhook_background (O : Oracles) (so : SaveOracles) (fd : PyDict) :
    LedgerUpdate × List CallKind :=
  let r := (process_forum_post O fd).1
  let tr := (process_forum_post O fd).2
  match r.image_stats with
  | none =>
      ({ status := "error"
       , error_message := some "AttributeError: NoneType object has no attribute get" }, tr)
  | some _ =>
      ({ status := r.processing_status, error_message := none },
       tr ++ (save_results so r).2)

/-- The terminal processing statuses of the state machine. -/
def terminalStatuses : List String :=
  ["completed", "hil_exception", "url_detected", "error"]

/-- config.MAX_QUEUE_SIZE. -/
def MAX_QUEUE_SIZE : Nat := 100

/-- The bounded FIFO processing queue (queue.Queue with a positive
maxsize). -/
structure PyQueue (α : Type) where
  maxsize : Nat
  items : List α

/-- queue.Queue.put_nowait: raise Full when a positive maxsize is reached,
otherwise append; never blocks. -/
def put_nowait {α : Type} (q : PyQueue α) (x : α) : Except Unit (PyQueue α) :=
  if 0 < q.maxsize ∧ q.maxsize ≤ q.items.length then .error ()
  else .ok { q with items := q.items ++ [x] }

/-- The enqueue step of webhook_receiver.receive_webhook: put_nowait inside
try, answering 202 on success and 503 (server busy, retry later) when Full
is raised, leaving the queue untouched. -/
def receive_webhook_enqueue {α : Type} (q : PyQueue α) (job : α) : Nat × PyQueue α :=
  match put_nowait q job with
  | .ok qq => (202, qq)
  | .error _ => (503, q)

/-- One match of ContentImageProcessor.IMG_BASE64_PATTERN: the whole img
tag, the extension group and the base64 payload group. -/
structure B64Match where
  fullMatch : List Char
  extension : List Char
  data : List Char

/-- The cache key of the transcription cache: Python hashes the first 100
plus last 100 characters of the base64 payload; the sample itself is the
key here (hash is modelled as injective on the samples). -/
def cacheKeyB64 (b : List Char) : List Char :=
  b.take 100 ++ b.drop (b.length - 100)

/-- Does the text start with the given pattern. -/
def startsWithL : List Char → List Char → Bool
  | [], _ => true
  | _ :: _, [] => false
  | p :: ps, c :: cs => p = c && startsWithL ps cs

/-- Python str.replace: replace every non-overlapping occurrence, left to
right (fuel-driven; the fuel is the text length, sufficient because every
step consumes at least one character for the non-empty patterns used). -/
def replaceAllAux (pat rep : List Char) : Nat → List Char → List Char
  | 0, s => s
  | fuel + 1, s =>
      if pat.isEmpty then s
      else if startsWithL pat s then rep ++ replaceAllAux pat rep fuel (s.drop pat.length)
      else
        match s with
        | [] => []
        | c :: cs => c :: replaceAllAux pat rep fuel cs

/-- Python str.replace on character lists. -/
def replaceAll (s pat rep : List Char) : List Char :=
  replaceAllAux pat rep s.length s

/-- The per-run transcription cache and the record of captioning calls
issued (each entry is the payload sent to the vision service). -/
structure ScanState where
  cache : List (List Char × List Char)
  calls : List (List Char)

/-- The empty state at the start of one job. -/
def emptyScanState : ScanState := { cache := [], calls := [] }

/-- Association lookup in the transcription cache. -/
def cacheFind : List (List Char × List Char) → List Char → Option (List Char)
  | [], _ => none
  | (k, v) :: rest, key => if k = key then some v else cacheFind rest key

/-- The transcription replacement marker. -/
def transcriptionMarker (t : List Char) : List Char :=
  ("[Image Transcription: ".toList) ++ t ++ ("]".toList)

/-- ContentImageProcessor._process_base64_images: iterate over the img-tag
base64 matches found in the original content; for each, look the
fingerprint up in the cache, otherwise issue one captioning call (the
transcribe oracle; none is a failed call, whose result is not cached);
replace the matched tag by the transcription marker and count it when a
transcription is available.  Returns the rewritten content, the count and
the final cache/call state. -/
def process_base64_images (transcribe : List Char → Option (List Char)) :
    List B64Match → List Char → ScanState → List Char × Nat × ScanState
  | [], content, st => (content, 0, st)
  | m :: rest, content, st =>
      let key := cacheKeyB64 m.data
      match cacheFind st.cache key with
      | some t1 =>
          let content2 := replaceAll content m.fullMatch (transcriptionMarker t1)
          let res := process_base64_images transcribe rest content2 st
          (res.1, res.2.1 + 1, res.2.2)
      | none =>
          let st1 : ScanState := { st with calls := st.calls ++ [m.data] }
          match transcribe m.data with
          | some t1 =>
              let st2 : ScanState := { st1 with cache := (key, t1) :: st1.cache }
              let content2 := replaceAll content m.fullMatch (transcriptionMarker t1)
              let res := process_base64_images transcribe rest content2 st2
              (res.1, res.2.1 + 1, res.2.2)
          | none => process_base64_images transcribe rest content st1

/-- The number of captioning calls in a state whose payload has the given
fingerprint. -/
def callsWithKey (st : ScanState) (f : List Char) : Nat :=
  st.calls.countP (fun b => cacheKeyB64 b = f)

/-- The deep classification recorded in a results record (the value
save_results and the posting decision read from the a2 result). -/
def a2_class (r : PResults) : PyVal :=
  match r.a2_parsed with
  | some p => jget p "classification" .null
  | none => .null

/-! ### Helper lemmas -/

theorem dedupKeepFirst_pairwise (us : List (List Char)) :
    ∀ seen, (dedupKeepFirst us seen).Pairwise (fun a b => lowerL a ≠ lowerL b) ∧
      ∀ v ∈ dedupKeepFirst us seen, lowerL v ∉ seen := by
  induction us with
  | nil => intro seen; simp [dedupKeepFirst]
  | cons u rest ih =>
    intro seen
    by_cases hm : lowerL u ∈ seen
    · simpa [dedupKeepFirst, hm] using ih seen
    · have h2 := ih (lowerL u :: seen)
      refine ⟨?_, ?_⟩
      · simp only [dedupKeepFirst, if_neg hm]
        refine List.pairwise_cons.mpr ⟨?_, h2.1⟩
        intro v hv
        have := h2.2 v hv
        intro he
        exact this (by simp [he])
      · intro v hv
        simp only [dedupKeepFirst, if_neg hm] at hv
        rcases List.mem_cons.mp hv with rfl | hv
        · exact hm
        · have := h2.2 v hv
          intro hs
          exact this (by simp [hs])

/-! ### Claim C4: bounded queue capacity -/

/-- Claim C4: when MAX_QUEUE_SIZE jobs are already queued, put_nowait
raises Full without adding the job, and the webhook endpoint translates
this into a 503 retry-later rejection leaving the queue untouched. -/
theorem c4_queue_capacity {α : Type} (q : PyQueue α) (job : α)
    (h1 : q.maxsize = MAX_QUEUE_SIZE) (h2 : q.items.length = MAX_QUEUE_SIZE) :
    put_nowait q job = .error () ∧ receive_webhook_enqueue q job = (503, q) := by
  have hp : put_nowait q job = .error () := by
    unfold put_nowait
    rw [if_pos]
    rw [h1, h2]
    constructor
    · decide
    · exact Nat.le_refl _
  exact ⟨hp, by unfold receive_webhook_enqueue; rw [hp]⟩

/-- Witness for C4 at a concrete full queue of 100 unit jobs. -/
theorem c4_queue_capacity_witness :
    put_nowait { maxsize := 100, items := List.replicate 100 () } () = .error () ∧
    receive_webhook_enqueue { maxsize := 100, items := List.replicate 100 () } () =
      (503, { maxsize := 100, items := List.replicate 100 () }) :=
  c4_queue_capacity _ () (by decide) (by decide)

/-! ### Claim C10: check_forum_data consistency -/

/-- Case-insensitive pairwise distinctness survives packaging the character
lists as strings. -/
theorem pairwiseLowerMk (l : List (List Char))
    (hp : l.Pairwise (fun a b => lowerL a ≠ lowerL b)) :
    (l.map String.mk).Pairwise (fun a b => pyLowerS a ≠ pyLowerS b) := by
  refine List.Pairwise.map String.mk ?_ hp
  intro a b hab he
  apply hab
  have hmk : String.mk (lowerL a) = String.mk (lowerL b) := by
    simpa [pyLowerS] using he
  injection hmk

/-- Claim C10: check_forum_data returns a pair whose flag is true exactly
when the URL list is non-empty, and the list never contains two URLs that
are equal ignoring case. -/
theorem c10_check_forum_data_consistent (fd : PyDict) (found : Bool) (urls : List String)
    (h : check_forum_dataE fd = .ok (found, urls)) :
    (found = true ↔ urls ≠ []) ∧
    urls.Pairwise (fun a b => pyLowerS a ≠ pyLowerS b) := by
  simp only [check_forum_dataE] at h
  split at h
  · exact absurd h (by simp)
  · split at h
    · exact absurd h (by simp)
    · simp only [Except.ok.injEq, Prod.mk.injEq] at h
      obtain ⟨hf, hu⟩ := h
      subst hf; subst hu
      constructor
      · simp [decide_eq_true_eq, List.length_pos, List.map_eq_nil_iff]
      · exact pairwiseLowerMk _ ((dedupKeepFirst_pairwise _ _).1)

/-- Witness for C10 at a concrete payload with one detected URL. -/
theorem c10_witness :
    check_forum_dataE [("forumPostText", PyVal.str "go https://bit.ly/x")] =
      .ok (true, ["https://bit.ly/x"]) ∧
    ((true = true ↔ (["https://bit.ly/x"] : List String) ≠ []) ∧
      (["https://bit.ly/x"] : List String).Pairwise (fun a b => pyLowerS a ≠ pyLowerS b)) :=
  ⟨by rfl,
    c10_check_forum_data_consistent [("forumPostText", PyVal.str "go https://bit.ly/x")]
      true ["https://bit.ly/x"] (by rfl)⟩

/-! ### Claim C1: URL detection short-circuits the pipeline -/

/-- Claim C1: when the URL guard finds a qualifying non-image URL in the
watched fields, process_forum_post terminates with status url_detected
having made no external call at all, and save_results makes no Airtable,
forum-post or Teams call and records nothing (its first read of the still
absent image statistics raises, and the blanket handler returns the
untouched save_status), so nothing persists beyond the ledger entry. -/
theorem c1_url_detected_short_circuit (O : Oracles) (so : SaveOracles) (fd : PyDict)
    (urls : List String) (h : check_forum_dataE fd = .ok (true, urls)) :
    (process_forum_post O fd).1.processing_status = "url_detected" ∧
    (process_forum_post O fd).1.url_check = true ∧
    (process_forum_post O fd).1.urls_list = urls ∧
    (process_forum_post O fd).2 = [] ∧
    save_results so (process_forum_post O fd).1 = (initSaveStatus, []) ∧
    (process_webhook_background O so fd).2 = [] := by
  have hrun : process_forum_post O fd =
      ({ initResults fd with
          url_check := true
          urls_list := urls
          processing_status := "url_detected" }, []) := by
    unfold process_forum_post
    rw [h]
    rfl
  rw [hrun]
  refine ⟨rfl, rfl, rfl, rfl, rfl, ?_⟩
  unfold process_webhook_background
  rw [hrun]
  rfl

/-- Witness for C1 at a concrete payload whose body carries a shortener
link. -/
theorem c1_witness :
    (process_forum_post
        { image_total := 0, a1 := none, a2 := none, tool := none, fmt := none }
        [("forumPostText", PyVal.str "see https://bit.ly/xyz")]).1.processing_status =
      "url_detected" ∧
    (process_forum_post
        { image_total := 0, a1 := none, a2 := none, tool := none, fmt := none }
        [("forumPostText", PyVal.str "see https://bit.ly/xyz")]).2 = [] ∧
    save_results
        { airtable_ok := true, forum_configured := true, forum_ok := true
        , forum_error_msg := "e", teams_configured := true, teams_ok := true }
        (process_forum_post
          { image_total := 0, a1 := none, a2 := none, tool := none, fmt := none }
          [("forumPostText", PyVal.str "see https://bit.ly/xyz")]).1 =
      (initSaveStatus, []) := by
  have h := c1_url_detected_short_circuit
    { image_total := 0, a1 := none, a2 := none, tool := none, fmt := none }
    { airtable_ok := true, forum_configured := true, forum_ok := true
    , forum_error_msg := "e", teams_configured := true, teams_ok := true }
    [("forumPostText", PyVal.str "see https://bit.ly/xyz")]
    ["https://bit.ly/xyz"] (by rfl)
  exact ⟨h.1, h.2.2.2.1, h.2.2.2.2.1⟩

/-! ### Claim C6: off-topic triage short-circuits to HIL -/

/-- Claim C6: when the payload passes the URL guard and the triage
classifier answers with any classification other than SM_Doubt, the run
terminates with status hil_exception and the HIL flag set, after exactly
the image-processing call and the triage call: no deep-classification,
tool or formatter call happens. -/
theorem c6_triage_hil (O : Oracles) (fd : PyDict) (urls : List String) (p1 : PyDict)
    (h1 : check_forum_dataE fd = .ok (false, urls))
    (h2 : run_classifier O.a1 = some p1)
    (h3 : (jget p1 "classification" PyVal.null).eqStr "SM_Doubt" = false) :
    (process_forum_post O fd).1.processing_status = "hil_exception" ∧
    (process_forum_post O fd).1.hil_flag = true ∧
    (process_forum_post O fd).2 = [CallKind.imageCall, CallKind.a1Call] := by
  unfold process_forum_post
  rw [h1]
  simp only [h2, h3]
  exact ⟨rfl, rfl, rfl⟩

/-- Witness for C6: a Gratitude triage classification goes to HIL after
the first two calls. -/
theorem c6_witness :
    (process_forum_post
        { image_total := 0
        , a1 := some (some [("classification", PyVal.str "Gratitude")])
        , a2 := none, tool := none, fmt := none }
        [("forumPostText", PyVal.str "thanks")]).1.processing_status = "hil_exception" ∧
    (process_forum_post
        { image_total := 0
        , a1 := some (some [("classification", PyVal.str "Gratitude")])
        , a2 := none, tool := none, fmt := none }
        [("forumPostText", PyVal.str "thanks")]).1.hil_flag = true ∧
    (process_forum_post
        { image_total := 0
        , a1 := some (some [("classification", PyVal.str "Gratitude")])
        , a2 := none, tool := none, fmt := none }
        [("forumPostText", PyVal.str "thanks")]).2 =
      [CallKind.imageCall, CallKind.a1Call] :=
  c6_triage_hil
    { image_total := 0
    , a1 := some (some [("classification", PyVal.str "Gratitude")])
    , a2 := none, tool := none, fmt := none }
    [("forumPostText", PyVal.str "thanks")] [] [("classification", PyVal.str "Gratitude")]
    (by rfl) (by rfl) (by rfl)

/-! ### Pipeline invariants -/

theorem fat_status_cases (O : Oracles) (r : PResults) (tr : List CallKind)
    (po : Option PyDict) :
    (finish_after_tool O r tr po).1.processing_status = "error" ∨
    (finish_after_tool O r tr po).1.processing_status = "hil_exception" ∨
    (finish_after_tool O r tr po).1.processing_status = "completed" := by
  simp only [finish_after_tool]
  repeat' split
  all_goals simp

theorem fat_fields (O : Oracles) (r : PResults) (tr : List CallKind)
    (po : Option PyDict) :
    (finish_after_tool O r tr po).1.image_stats = r.image_stats ∧
    (finish_after_tool O r tr po).1.a2_parsed = r.a2_parsed ∧
    (finish_after_tool O r tr po).1.tool_parsed = r.tool_parsed := by
  simp only [finish_after_tool]
  repeat' split
  all_goals simp

theorem fat_image_stats (O : Oracles) (r : PResults) (tr : List CallKind)
    (po : Option PyDict) :
    (finish_after_tool O r tr po).1.image_stats = r.image_stats :=
  (fat_fields O r tr po).1

theorem fat_a2 (O : Oracles) (r : PResults) (tr : List CallKind)
    (po : Option PyDict) :
    (finish_after_tool O r tr po).1.a2_parsed = r.a2_parsed :=
  (fat_fields O r tr po).2.1

theorem fat_status_mem (O : Oracles) (r : PResults) (tr : List CallKind)
    (po : Option PyDict) :
    (finish_after_tool O r tr po).1.processing_status ∈ terminalStatuses := by
  rcases fat_status_cases O r tr po with h | h | h <;> simp [terminalStatuses, h]

theorem fat_not_url (O : Oracles) (r : PResults) (tr : List CallKind)
    (po : Option PyDict) :
    ¬(finish_after_tool O r tr po).1.processing_status = "url_detected" := by
  rcases fat_status_cases O r tr po with h | h | h <;> simp [h]

theorem pfp_status_terminal (O : Oracles) (fd : PyDict) :
    (process_forum_post O fd).1.processing_status ∈ terminalStatuses := by
  simp only [process_forum_post]
  repeat' split
  all_goals first
    | exact fat_status_mem O _ _ _
    | simp [terminalStatuses]

theorem pfp_shape (O : Oracles) (fd : PyDict) :
    ((process_forum_post O fd).1.image_stats = none ∧
      ((process_forum_post O fd).1.processing_status = "url_detected" ∨
       (process_forum_post O fd).1.processing_status = "error")) ∨
    ((process_forum_post O fd).1.image_stats = some O.image_total ∧
      ¬(process_forum_post O fd).1.processing_status = "url_detected") := by
  simp only [process_forum_post]
  repeat' split
  all_goals first
    | exact Or.inl ⟨rfl, Or.inl rfl⟩
    | exact Or.inl ⟨rfl, Or.inr rfl⟩
    | exact Or.inr ⟨rfl, by simp⟩
    | (refine Or.inr ⟨?_, fat_not_url O _ _ _⟩; rw [fat_image_stats])

theorem tool_mapping_shape (v : PyVal) (k : String) (h : tool_mapping_get v = some k) :
    ∃ s, v = PyVal.str s ∧
      (s = "Genuine_Doubt" ∨ s = "Pointing_Out_Corrections" ∨
       s = "Variation_of_Question" ∨ s = "Alternate_Approach") := by
  cases v <;> simp only [tool_mapping_get] at h
  all_goals try exact absurd h (by simp)
  rename_i s
  refine ⟨s, rfl, ?_⟩
  split_ifs at h with h1 h2 h3 h4
  · exact Or.inl h1
  · exact Or.inr (Or.inl h2)
  · exact Or.inr (Or.inr (Or.inl h3))
  · exact Or.inr (Or.inr (Or.inr h4))

theorem pfp_completed_shape (O : Oracles) (fd : PyDict)
    (h : (process_forum_post O fd).1.processing_status = "completed") :
    ∃ p2 s, (process_forum_post O fd).1.a2_parsed = some p2 ∧
      jget p2 "classification" PyVal.null = PyVal.str s ∧
      (s = "Genuine_Doubt" ∨ s = "Pointing_Out_Corrections" ∨
       s = "Variation_of_Question" ∨ s = "Alternate_Approach") := by
  revert h
  simp only [process_forum_post]
  repeat' split
  all_goals intro h
  all_goals try (simp at h)
  obtain ⟨s, hs, hfour⟩ := tool_mapping_shape _ _ (by assumption)
  rw [fat_a2]
  exact ⟨_, s, rfl, hs, hfour⟩

/-! ### Claim C5: no exception escapes the worker, terminal status always -/

/-- Claim C5: for every payload and every collaborator behaviour,
process_forum_post returns a results record whose status is terminal (its
blanket handler maps every internal fault to error), and the background
worker always issues exactly one terminal ledger update: the normal path
records the pipeline status, and the one worker-level fault (reading the
image statistics of a record that has none) records status error together
with the fault message. -/
theorem c5_worker_terminal (O : Oracles) (so : SaveOracles) (fd : PyDict) :
    (process_forum_post O fd).1.processing_status ∈ terminalStatuses ∧
    (process_webhook_background O so fd).1.status ∈ terminalStatuses ∧
    ((process_forum_post O fd).1.image_stats = none →
      (process_webhook_background O so fd).1 =
        { status := "error"
        , error_message := some "AttributeError: NoneType object has no attribute get" }) ∧
    (∀ n, (process_forum_post O fd).1.image_stats = some n →
      (process_webhook_background O so fd).1 =
        { status := (process_forum_post O fd).1.processing_status, error_message := none }) := by
  have hterm := pfp_status_terminal O fd
  refine ⟨hterm, ?_, ?_, ?_⟩
  · unfold process_webhook_background
    cases hst : (process_forum_post O fd).1.image_stats with
    | none => simp only [hst]; simp [terminalStatuses]
    | some n => simp only [hst]; simpa using hterm
  · intro hst
    unfold process_webhook_background
    simp only [hst]
  · intro n hst
    unfold process_webhook_background
    simp only [hst]

/-- Witness for C5 at a url-detected run, where the worker-level fault path
is taken and the ledger update still records a terminal error status. -/
theorem c5_witness :
    (process_forum_post
        { image_total := 0, a1 := none, a2 := none, tool := none, fmt := none }
        [("forumPostText", PyVal.str "see https://bit.ly/xyz")]).1.processing_status ∈
      terminalStatuses ∧
    (process_webhook_background
        { image_total := 0, a1 := none, a2 := none, tool := none, fmt := none }
        { airtable_ok := true, forum_configured := true, forum_ok := true
        , forum_error_msg := "e", teams_configured := true, teams_ok := true }
        [("forumPostText", PyVal.str "see https://bit.ly/xyz")]).1 =
      { status := "error"
      , error_message := some "AttributeError: NoneType object has no attribute get" } := by
  have h := c5_worker_terminal
    { image_total := 0, a1 := none, a2 := none, tool := none, fmt := none }
    { airtable_ok := true, forum_configured := true, forum_ok := true
    , forum_error_msg := "e", teams_configured := true, teams_ok := true }
    [("forumPostText", PyVal.str "see https://bit.ly/xyz")]
  exact ⟨h.1, h.2.2.1 (by rfl)⟩

/-! ### save_results helper lemmas -/

theorem jget_str_truthy (p : PyDict) (k : String) (s : String)
    (h : jget p k PyVal.null = PyVal.str s) : (PyVal.obj p).truthy = true := by
  cases p with
  | nil => simp [jget, lookupStr] at h
  | cons a rest => simp [PyVal.truthy]

theorem save_nopost (so : SaveOracles) (r : PResults)
    (hsp : should_post_to_forum r = .ok false) :
    CallKind.forumPostCall ∉ (save_results so r).2 := by
  unfold save_results
  cases hst : r.image_stats with
  | none => simp
  | some n =>
    simp only []
    split
    · split <;> simp
    · rw [hsp]
      simp only []
      repeat' split
      all_goals simp_all

theorem save_skipped_hil (so : SaveOracles) (r : PResults) (n : Nat)
    (hst : r.image_stats = some n) (h : r.processing_status = "hil_exception") :
    (save_results so r).1.forum_post_status = some "skipped_hil" ∧
    should_post_to_forum r = .ok false := by
  have hsp : should_post_to_forum r = .ok false := by
    unfold should_post_to_forum
    rw [h]
    simp
  refine ⟨?_, hsp⟩
  unfold save_results
  rw [hst]
  simp only []
  rw [hsp, h]
  simp only []
  repeat' split
  all_goals simp_all

theorem save_skipped_validation (so : SaveOracles) (r : PResults) (n : Nat)
    (hst : r.image_stats = some n) (h : r.processing_status = "completed")
    (hsp : should_post_to_forum r = .ok false) :
    (save_results so r).1.forum_post_status = some "skipped_validation" := by
  unfold save_results
  rw [hst]
  simp only []
  rw [hsp, h]
  simp only []
  repeat' split
  all_goals simp_all

/-! ### Claim C2: the posting decision -/

/-- Claim C2 (amended): posting decision for the records the pipeline
produces.  A completed record with a non-Pointing_Out_Corrections deep
classification has a positive posting decision; a completed
Pointing_Out_Corrections record posts exactly when its validation verdict
upper-cases to INVALID (the source upper-cases the verdict before the
comparison, so the lower-case verdict invalid also posts) and otherwise
ends as skipped_validation; hil_exception records end as skipped_hil; and
error and url_detected records are never posted. -/
theorem c2_posting_decision_amended (O : Oracles) (so : SaveOracles) (fd : PyDict) :
    ((process_forum_post O fd).1.processing_status = "completed" →
      PyVal.eqStr (a2_class (process_forum_post O fd).1) "Pointing_Out_Corrections" = false →
      should_post_to_forum (process_forum_post O fd).1 = .ok true) ∧
    ((process_forum_post O fd).1.processing_status = "completed" →
      PyVal.eqStr (a2_class (process_forum_post O fd).1) "Pointing_Out_Corrections" = true →
      ∀ p vr v, (process_forum_post O fd).1.tool_parsed = some (some p) →
        jget p "validation_result" (PyVal.obj []) = PyVal.obj vr →
        jget vr "classification" (PyVal.str "") = PyVal.str v →
        ((pyUpper v = "INVALID" →
            should_post_to_forum (process_forum_post O fd).1 = .ok true) ∧
         (¬pyUpper v = "INVALID" →
            should_post_to_forum (process_forum_post O fd).1 = .ok false ∧
            (save_results so (process_forum_post O fd).1).1.forum_post_status =
              some "skipped_validation"))) ∧
    ((process_forum_post O fd).1.processing_status = "hil_exception" →
      (save_results so (process_forum_post O fd).1).1.forum_post_status = some "skipped_hil" ∧
      CallKind.forumPostCall ∉ (save_results so (process_forum_post O fd).1).2) ∧
    ((process_forum_post O fd).1.processing_status = "error" ∨
      (process_forum_post O fd).1.processing_status = "url_detected" →
      should_post_to_forum (process_forum_post O fd).1 = .ok false ∧
      CallKind.forumPostCall ∉ (save_results so (process_forum_post O fd).1).2) := by
  refine ⟨?_, ?_, ?_, ?_⟩
  · intro h hnp
    obtain ⟨p2, s, ha2, hcl, hfour⟩ := pfp_completed_shape O fd h
    have htr : (PyVal.obj p2).truthy = true := jget_str_truthy _ _ _ hcl
    simp only [PyVal.truthy] at htr
    have hac : a2_class (process_forum_post O fd).1 = PyVal.str s := by
      simp [a2_class, ha2, hcl]
    rw [hac] at hnp
    have hsne : ¬s = "Pointing_Out_Corrections" := by
      simpa [PyVal.eqStr] using hnp
    rcases hfour with rfl | rfl | rfl | rfl
    · unfold should_post_to_forum
      simp [h, ha2, htr, hcl, PyVal.truthy, PyVal.eqStr]
    · exact absurd rfl hsne
    · unfold should_post_to_forum
      simp [h, ha2, htr, hcl, PyVal.truthy, PyVal.eqStr]
    · unfold should_post_to_forum
      simp [h, ha2, htr, hcl, PyVal.truthy, PyVal.eqStr]
  · intro h hpoc p vr v hp hvr hv
    obtain ⟨p2, s, ha2, hcl, hfour⟩ := pfp_completed_shape O fd h
    have htr : (PyVal.obj p2).truthy = true := jget_str_truthy _ _ _ hcl
    simp only [PyVal.truthy] at htr
    have hac : a2_class (process_forum_post O fd).1 = PyVal.str s := by
      simp [a2_class, ha2, hcl]
    rw [hac] at hpoc
    have hseq : s = "Pointing_Out_Corrections" := by
      simpa [PyVal.eqStr] using hpoc
    subst hseq
    constructor
    · intro hup
      unfold should_post_to_forum
      simp [h, ha2, htr, hcl, PyVal.truthy, PyVal.eqStr, hp, hvr, hv, hup]
    · intro hup
      have hsp : should_post_to_forum (process_forum_post O fd).1 = .ok false := by
        unfold should_post_to_forum
        simp [h, ha2, htr, hcl, PyVal.truthy, PyVal.eqStr, hp, hvr, hv, hup]
      have hstats : (process_forum_post O fd).1.image_stats = some O.image_total := by
        rcases pfp_shape O fd with ⟨hnone, hu | he⟩ | ⟨hs, hnu⟩
        · rw [h] at hu; exact absurd hu (by decide)
        · rw [h] at he; exact absurd he (by decide)
        · exact hs
      exact ⟨hsp, save_skipped_validation so _ O.image_total hstats h hsp⟩
  · intro h
    have hstats : (process_forum_post O fd).1.image_stats = some O.image_total := by
      rcases pfp_shape O fd with ⟨hnone, hu | he⟩ | ⟨hs, hnu⟩
      · rw [h] at hu; exact absurd hu (by decide)
      · rw [h] at he; exact absurd he (by decide)
      · exact hs
    obtain ⟨hst, hsp⟩ := save_skipped_hil so _ O.image_total hstats h
    exact ⟨hst, save_nopost so _ hsp⟩
  · intro h
    have hsp : should_post_to_forum (process_forum_post O fd).1 = .ok false := by
      unfold should_post_to_forum
      rcases h with h | h <;> rw [h] <;> simp
    exact ⟨hsp, save_nopost so _ hsp⟩

/-- Counterexample to Claim C2 as stated: a completed
Pointing_Out_Corrections run whose validation verdict is the lower-case
string invalid.  The verdict differs from the INVALID named by the claim,
so the claim requires skipped_validation, but the source upper-cases the
verdict first: the decision is positive and the response is posted. -/
theorem c2_counterexample :
    (process_forum_post
        { image_total := 0
        , a1 := some (some [("classification", PyVal.str "SM_Doubt")])
        , a2 := some (some [("classification", PyVal.str "Pointing_Out_Corrections")])
        , tool := some (some [("response", PyVal.str "fix"),
            ("validation_result", PyVal.obj [("classification", PyVal.str "invalid")])])
        , fmt := some (some [("response_html", PyVal.str "<p>x</p>")]) }
        [("correlationId", PyVal.str "c1")]).1.processing_status = "completed" ∧
    a2_class (process_forum_post
        { image_total := 0
        , a1 := some (some [("classification", PyVal.str "SM_Doubt")])
        , a2 := some (some [("classification", PyVal.str "Pointing_Out_Corrections")])
        , tool := some (some [("response", PyVal.str "fix"),
            ("validation_result", PyVal.obj [("classification", PyVal.str "invalid")])])
        , fmt := some (some [("response_html", PyVal.str "<p>x</p>")]) }
        [("correlationId", PyVal.str "c1")]).1 = PyVal.str "Pointing_Out_Corrections" ∧
    ("invalid" : String) ≠ "INVALID" ∧
    should_post_to_forum (process_forum_post
        { image_total := 0
        , a1 := some (some [("classification", PyVal.str "SM_Doubt")])
        , a2 := some (some [("classification", PyVal.str "Pointing_Out_Corrections")])
        , tool := some (some [("response", PyVal.str "fix"),
            ("validation_result", PyVal.obj [("classification", PyVal.str "invalid")])])
        , fmt := some (some [("response_html", PyVal.str "<p>x</p>")]) }
        [("correlationId", PyVal.str "c1")]).1 = .ok true ∧
    (save_results
        { airtable_ok := true, forum_configured := true, forum_ok := true
        , forum_error_msg := "e", teams_configured := false, teams_ok := false }
        (process_forum_post
          { image_total := 0
          , a1 := some (some [("classification", PyVal.str "SM_Doubt")])
          , a2 := some (some [("classification", PyVal.str "Pointing_Out_Corrections")])
          , tool := some (some [("response", PyVal.str "fix"),
              ("validation_result", PyVal.obj [("classification", PyVal.str "invalid")])])
          , fmt := some (some [("response_html", PyVal.str "<p>x</p>")]) }
          [("correlationId", PyVal.str "c1")]).1).1.forum_post_status = some "posted" :=
  ⟨rfl, rfl, by decide, rfl, rfl⟩

/-- Witness for C2 (amended) at a completed Pointing_Out_Corrections run
whose verdict VALID does not upper-case to INVALID: the decision is
negative and the outcome is skipped_validation. -/
theorem c2_posting_decision_witness :
    should_post_to_forum (process_forum_post
        { image_total := 0
        , a1 := some (some [("classification", PyVal.str "SM_Doubt")])
        , a2 := some (some [("classification", PyVal.str "Pointing_Out_Corrections")])
        , tool := some (some [("response", PyVal.str "fix"),
            ("validation_result", PyVal.obj [("classification", PyVal.str "VALID")])])
        , fmt := some (some [("response_html", PyVal.str "<p>x</p>")]) }
        [("correlationId", PyVal.str "c1")]).1 = .ok false ∧
    (save_results
        { airtable_ok := true, forum_configured := true, forum_ok := true
        , forum_error_msg := "e", teams_configured := false, teams_ok := false }
        (process_forum_post
          { image_total := 0
          , a1 := some (some [("classification", PyVal.str "SM_Doubt")])
          , a2 := some (some [("classification", PyVal.str "Pointing_Out_Corrections")])
          , tool := some (some [("response", PyVal.str "fix"),
              ("validation_result", PyVal.obj [("classification", PyVal.str "VALID")])])
          , fmt := some (some [("response_html", PyVal.str "<p>x</p>")]) }
          [("correlationId", PyVal.str "c1")]).1).1.forum_post_status =
      some "skipped_validation" :=
  ((c2_posting_decision_amended
      { image_total := 0
      , a1 := some (some [("classification", PyVal.str "SM_Doubt")])
      , a2 := some (some [("classification", PyVal.str "Pointing_Out_Corrections")])
      , tool := some (some [("response", PyVal.str "fix"),
          ("validation_result", PyVal.obj [("classification", PyVal.str "VALID")])])
      , fmt := some (some [("response_html", PyVal.str "<p>x</p>")]) }
      { airtable_ok := true, forum_configured := true, forum_ok := true
      , forum_error_msg := "e", teams_configured := false, teams_ok := false }
      [("correlationId", PyVal.str "c1")]).2.1
    (by rfl) (by rfl)
    [("response", PyVal.str "fix"),
      ("validation_result", PyVal.obj [("classification", PyVal.str "VALID")])]
    [("classification", PyVal.str "VALID")] "VALID"
    (by rfl) (by rfl) (by rfl)).2 (by decide)

/-! ### Claim C7: responder hil_escalation -/

/-- Counterexample to Claim C7 as stated: a responder output that sets
metadata hil_escalation to true but whose response object carries a
non-string part.  Response extraction runs before the HIL check and its
join raises TypeError, so the terminal status is error, not hil_exception,
and the HIL flag stays unset: the status is not hil_exception regardless
of every other field. -/
theorem c7_counterexample :
    jget [("response", PyVal.obj [("greeting", PyVal.num 5)]),
          ("metadata", PyVal.obj [("hil_escalation", PyVal.bool true)])]
        "metadata" (PyVal.obj []) =
      PyVal.obj [("hil_escalation", PyVal.bool true)] ∧
    (process_forum_post
        { image_total := 0
        , a1 := some (some [("classification", PyVal.str "SM_Doubt")])
        , a2 := some (some [("classification", PyVal.str "Genuine_Doubt")])
        , tool := some (some [("response", PyVal.obj [("greeting", PyVal.num 5)]),
            ("metadata", PyVal.obj [("hil_escalation", PyVal.bool true)])])
        , fmt := none }
        [("correlationId", PyVal.str "c1")]).1.processing_status = "error" ∧
    ¬(process_forum_post
        { image_total := 0
        , a1 := some (some [("classification", PyVal.str "SM_Doubt")])
        , a2 := some (some [("classification", PyVal.str "Genuine_Doubt")])
        , tool := some (some [("response", PyVal.obj [("greeting", PyVal.num 5)]),
            ("metadata", PyVal.obj [("hil_escalation", PyVal.bool true)])])
        , fmt := none }
        [("correlationId", PyVal.str "c1")]).1.processing_status = "hil_exception" ∧
    (process_forum_post
        { image_total := 0
        , a1 := some (some [("classification", PyVal.str "SM_Doubt")])
        , a2 := some (some [("classification", PyVal.str "Genuine_Doubt")])
        , tool := some (some [("response", PyVal.obj [("greeting", PyVal.num 5)]),
            ("metadata", PyVal.obj [("hil_escalation", PyVal.bool true)])])
        , fmt := none }
        [("correlationId", PyVal.str "c1")]).1.hil_flag = false :=
  ⟨rfl, rfl, by decide, rfl⟩

/-- Claim C7 (amended): when the responder output sets metadata
hil_escalation to true and response extraction does not itself raise (the
raise path ends at error instead), the terminal status is hil_exception
regardless of every other field of the output, and the response is never
posted to the forum (outcome skipped_hil). -/
theorem c7_hil_escalation_amended (O : Oracles) (so : SaveOracles) (fd : PyDict)
    (urls : List String) (p1 p2 : PyDict) (tk : String) (p m : PyDict) (fr fh : PyVal)
    (h1 : check_forum_dataE fd = .ok (false, urls))
    (h2 : run_classifier O.a1 = some p1)
    (h3 : (jget p1 "classification" PyVal.null).eqStr "SM_Doubt" = true)
    (h4 : run_classifier O.a2 = some p2)
    (h5 : tool_mapping_get (jget p2 "classification" PyVal.null) = some tk)
    (h6 : O.tool = some (some p))
    (h7 : jget p "metadata" (PyVal.obj []) = PyVal.obj m)
    (h8 : (jget m "hil_escalation" PyVal.null).pyEqTrue = true)
    (h9 : extract_response p = .ok (fr, fh)) :
    (process_forum_post O fd).1.processing_status = "hil_exception" ∧
    (process_forum_post O fd).1.hil_flag = true ∧
    (save_results so (process_forum_post O fd).1).1.forum_post_status = some "skipped_hil" ∧
    CallKind.forumPostCall ∉ (save_results so (process_forum_post O fd).1).2 := by
  have hhil : compute_hil_flag p = .ok true := by
    unfold compute_hil_flag
    rw [h7]
    split_ifs <;> simp [h8]
  have hpipe : (process_forum_post O fd).1.processing_status = "hil_exception" ∧
      (process_forum_post O fd).1.hil_flag = true ∧
      (process_forum_post O fd).1.image_stats = some O.image_total := by
    unfold process_forum_post
    rw [h1]
    simp only [h2, h3, h4, h5, h6]
    unfold finish_after_tool
    simp only [h9, hhil]
    repeat' split
    all_goals simp_all
  have hstats := hpipe.2.2
  obtain ⟨hst, hsp⟩ := save_skipped_hil so _ O.image_total hstats hpipe.1
  exact ⟨hpipe.1, hpipe.2.1, hst, save_nopost so _ hsp⟩

/-- Witness for C7 (amended) at a concrete responder output that escalates
through its metadata and has a plain string response. -/
theorem c7_hil_escalation_witness :
    (process_forum_post
        { image_total := 0
        , a1 := some (some [("classification", PyVal.str "SM_Doubt")])
        , a2 := some (some [("classification", PyVal.str "Genuine_Doubt")])
        , tool := some (some [("response", PyVal.str "x"),
            ("metadata", PyVal.obj [("hil_escalation", PyVal.bool true)])])
        , fmt := none }
        [("correlationId", PyVal.str "c1")]).1.processing_status = "hil_exception" ∧
    (process_forum_post
        { image_total := 0
        , a1 := some (some [("classification", PyVal.str "SM_Doubt")])
        , a2 := some (some [("classification", PyVal.str "Genuine_Doubt")])
        , tool := some (some [("response", PyVal.str "x"),
            ("metadata", PyVal.obj [("hil_escalation", PyVal.bool true)])])
        , fmt := none }
        [("correlationId", PyVal.str "c1")]).1.hil_flag = true ∧
    (save_results
        { airtable_ok := true, forum_configured := true, forum_ok := true
        , forum_error_msg := "e", teams_configured := false, teams_ok := false }
        (process_forum_post
          { image_total := 0
          , a1 := some (some [("classification", PyVal.str "SM_Doubt")])
          , a2 := some (some [("classification", PyVal.str "Genuine_Doubt")])
          , tool := some (some [("response", PyVal.str "x"),
              ("metadata", PyVal.obj [("hil_escalation", PyVal.bool true)])])
          , fmt := none }
          [("correlationId", PyVal.str "c1")]).1).1.forum_post_status = some "skipped_hil" ∧
    CallKind.forumPostCall ∉ (save_results
        { airtable_ok := true, forum_configured := true, forum_ok := true
        , forum_error_msg := "e", teams_configured := false, teams_ok := false }
        (process_forum_post
          { image_total := 0
          , a1 := some (some [("classification", PyVal.str "SM_Doubt")])
          , a2 := some (some [("classification", PyVal.str "Genuine_Doubt")])
          , tool := some (some [("response", PyVal.str "x"),
              ("metadata", PyVal.obj [("hil_escalation", PyVal.bool true)])])
          , fmt := none }
          [("correlationId", PyVal.str "c1")]).1).2 :=
  c7_hil_escalation_amended
    { image_total := 0
    , a1 := some (some [("classification", PyVal.str "SM_Doubt")])
    , a2 := some (some [("classification", PyVal.str "Genuine_Doubt")])
    , tool := some (some [("response", PyVal.str "x"),
        ("metadata", PyVal.obj [("hil_escalation", PyVal.bool true)])])
    , fmt := none }
    { airtable_ok := true, forum_configured := true, forum_ok := true
    , forum_error_msg := "e", teams_configured := false, teams_ok := false }
    [("correlationId", PyVal.str "c1")] []
    [("classification", PyVal.str "SM_Doubt")]
    [("classification", PyVal.str "Genuine_Doubt")]
    "tool_3"
    [("response", PyVal.str "x"),
      ("metadata", PyVal.obj [("hil_escalation", PyVal.bool true)])]
    [("hil_escalation", PyVal.bool true)]
    (PyVal.str "x") PyVal.null
    (by rfl) (by rfl) (by rfl) (by rfl) (by rfl) (by rfl) (by rfl) (by rfl) (by rfl)

/-! ### Claim C8: response extraction priority and scenario C -/

theorem content_lookup_truthy (robj : PyDict) (c : PyVal)
    (h : content_lookup robj = some c) : c.truthy = true := by
  rcases hl : lookupStr robj "content" with - | c2
  · simp [content_lookup, hl] at h
  · simp only [content_lookup, hl] at h
    split_ifs at h with ht
    cases h
    exact ht

theorem save_posts (so : SaveOracles) (r : PResults) (n : Nat)
    (hst : r.image_stats = some n) (hc : r.processing_status = "completed")
    (hsp : should_post_to_forum r = .ok true)
    (hh : r.final_response_html.truthy = true)
    (hcfg : so.forum_configured = true) :
    CallKind.forumPostCall ∈ (save_results so r).2 := by
  unfold save_results
  rw [hst]
  simp only []
  rw [hsp, hc]
  simp only []
  repeat' split
  all_goals simp_all

/-- Claim C8: response extraction follows the priority order of the
source: a nested response dict with a truthy content field wins; else the
named parts joined by blank lines; else a truthy response_html field (also
filling the HTML slot); else Response, else response, else the empty
string.  In particular a run whose responder output has the shape of a
response dict with content and no exception flag completes with
final_response equal to the content value and a forum post is attempted
(given a formatter that does not return an empty HTML value and a
configured forum client). -/
theorem c8_response_extraction (O : Oracles) (so : SaveOracles) (fd : PyDict)
    (urls : List String) (p1 p2 p robj : PyDict) (c : PyVal)
    (h1 : check_forum_dataE fd = .ok (false, urls))
    (h2 : run_classifier O.a1 = some p1)
    (h3 : (jget p1 "classification" PyVal.null).eqStr "SM_Doubt" = true)
    (h4 : run_classifier O.a2 = some p2)
    (h5 : jget p2 "classification" PyVal.null = PyVal.str "Genuine_Doubt")
    (h6 : O.tool = some (some p))
    (h7 : jget p "response" PyVal.null = PyVal.obj robj)
    (h8 : content_lookup robj = some c)
    (h9 : compute_hil_flag p = .ok false)
    (h10 : ∀ h, format_to_html O.fmt = some h → h.truthy = true)
    (h11 : so.forum_configured = true) :
    (∀ q robj2 c2, jget q "response" PyVal.null = PyVal.obj robj2 →
      content_lookup robj2 = some c2 → extract_response q = .ok (c2, PyVal.null)) ∧
    (∀ q robj2 s2, jget q "response" PyVal.null = PyVal.obj robj2 →
      content_lookup robj2 = none → joinPartsE (collectParts robj2) = .ok s2 →
      extract_response q = .ok (PyVal.str s2, PyVal.null)) ∧
    (∀ q, (∀ fs, jget q "response" PyVal.null ≠ PyVal.obj fs) →
      (jget q "response_html" PyVal.null).truthy = true →
      extract_response q =
        .ok (jget q "response_html" PyVal.null, jget q "response_html" PyVal.null)) ∧
    (∀ q, (∀ fs, jget q "response" PyVal.null ≠ PyVal.obj fs) →
      (jget q "response_html" PyVal.null).truthy = false →
      extract_response q =
        .ok (jget q "Response" (jget q "response" (PyVal.str "")), PyVal.null)) ∧
    (process_forum_post O fd).1.final_response = c ∧
    (process_forum_post O fd).1.processing_status = "completed" ∧
    CallKind.forumPostCall ∈ (save_results so (process_forum_post O fd).1).2 := by
  have htrc : c.truthy = true := content_lookup_truthy robj c h8
  have hx : extract_response p = .ok (c, PyVal.null) := by
    unfold extract_response
    rw [h7]
    simp only [h8]
  have hpipe : (process_forum_post O fd).1.final_response = c ∧
      (process_forum_post O fd).1.processing_status = "completed" ∧
      (process_forum_post O fd).1.final_response_html.truthy = true ∧
      (process_forum_post O fd).1.a2_parsed = some p2 ∧
      (process_forum_post O fd).1.image_stats = some O.image_total := by
    unfold process_forum_post
    rw [h1]
    simp only [h2, h3, h4, h5, h6]
    simp [tool_mapping_get]
    unfold finish_after_tool
    simp only [hx, h9]
    repeat' split
    all_goals simp_all
  have hsp : should_post_to_forum (process_forum_post O fd).1 = .ok true := by
    have htr2 : (PyVal.obj p2).truthy = true := jget_str_truthy _ _ _ h5
    simp only [PyVal.truthy] at htr2
    unfold should_post_to_forum
    simp [hpipe.2.1, hpipe.2.2.2.1, h5, htr2, PyVal.truthy, PyVal.eqStr]
  refine ⟨?_, ?_, ?_, ?_, hpipe.1, hpipe.2.1, ?_⟩
  · intro q robj2 c2 hq hc2
    unfold extract_response
    rw [hq]
    simp only [hc2]
  · intro q robj2 s2 hq hc2 hj
    unfold extract_response
    rw [hq]
    simp only [hc2, hj]
  · intro q hno hrh
    unfold extract_response
    split
    · exact absurd (by assumption) (hno _)
    · simp [hrh]
  · intro q hno hrh
    unfold extract_response
    split
    · exact absurd (by assumption) (hno _)
    · simp [hrh]
  · exact save_posts so _ O.image_total hpipe.2.2.2.2 hpipe.2.1 hsp hpipe.2.2.1 h11

/-- Witness for C8 at a concrete responder output carrying a response dict
with a content value. -/
theorem c8_response_extraction_witness :
    (process_forum_post
        { image_total := 0
        , a1 := some (some [("classification", PyVal.str "SM_Doubt")])
        , a2 := some (some [("classification", PyVal.str "Genuine_Doubt")])
        , tool := some (some [("response", PyVal.obj [("content", PyVal.str "hello")])])
        , fmt := some (some [("response_html", PyVal.str "<p>hello</p>")]) }
        [("correlationId", PyVal.str "c1")]).1.final_response = PyVal.str "hello" ∧
    (process_forum_post
        { image_total := 0
        , a1 := some (some [("classification", PyVal.str "SM_Doubt")])
        , a2 := some (some [("classification", PyVal.str "Genuine_Doubt")])
        , tool := some (some [("response", PyVal.obj [("content", PyVal.str "hello")])])
        , fmt := some (some [("response_html", PyVal.str "<p>hello</p>")]) }
        [("correlationId", PyVal.str "c1")]).1.processing_status = "completed" ∧
    CallKind.forumPostCall ∈ (save_results
        { airtable_ok := true, forum_configured := true, forum_ok := true
        , forum_error_msg := "e", teams_configured := false, teams_ok := false }
        (process_forum_post
          { image_total := 0
          , a1 := some (some [("classification", PyVal.str "SM_Doubt")])
          , a2 := some (some [("classification", PyVal.str "Genuine_Doubt")])
          , tool := some (some [("response", PyVal.obj [("content", PyVal.str "hello")])])
          , fmt := some (some [("response_html", PyVal.str "<p>hello</p>")]) }
          [("correlationId", PyVal.str "c1")]).1).2 := by
  have h := c8_response_extraction
    { image_total := 0
    , a1 := some (some [("classification", PyVal.str "SM_Doubt")])
    , a2 := some (some [("classification", PyVal.str "Genuine_Doubt")])
    , tool := some (some [("response", PyVal.obj [("content", PyVal.str "hello")])])
    , fmt := some (some [("response_html", PyVal.str "<p>hello</p>")]) }
    { airtable_ok := true, forum_configured := true, forum_ok := true
    , forum_error_msg := "e", teams_configured := false, teams_ok := false }
    [("correlationId", PyVal.str "c1")] []
    [("classification", PyVal.str "SM_Doubt")]
    [("classification", PyVal.str "Genuine_Doubt")]
    [("response", PyVal.obj [("content", PyVal.str "hello")])]
    [("content", PyVal.str "hello")]
    (PyVal.str "hello")
    (by rfl) (by rfl) (by rfl) (by rfl) (by rfl) (by rfl) (by rfl) (by rfl) (by rfl)
    (by
      intro hv hh
      have he : format_to_html (some (some [("response_html", PyVal.str "<p>hello</p>")])) =
          some (PyVal.str "<p>hello</p>") := rfl
      rw [he] at hh
      cases hh
      decide)
    (by rfl)
  exact ⟨h.2.2.2.2.1, h.2.2.2.2.2.1, h.2.2.2.2.2.2⟩

/-! ### Claim C3: image fingerprint idempotence -/

theorem callsWithKey_append_one (st : ScanState) (d f : List Char) :
    callsWithKey { st with calls := st.calls ++ [d] } f =
      callsWithKey st f + (if cacheKeyB64 d = f then 1 else 0) := by
  simp [callsWithKey, List.countP_append, List.countP_cons]

theorem pbi_calls_aux (t : List Char → Option (List Char)) (f : List Char)
    (ms : List B64Match) :
    ∀ (content : List Char) (st : ScanState),
      (∀ m ∈ ms, (t m.data).isSome) →
      callsWithKey (process_base64_images t ms content st).2.2 f =
        callsWithKey st f +
          (if f ∈ ms.map (fun m => cacheKeyB64 m.data) ∧ cacheFind st.cache f = none
           then 1 else 0) := by
  induction ms with
  | nil =>
    intro content st hs
    simp [process_base64_images]
  | cons m rest ih =>
    intro content st hs
    have hm : (t m.data).isSome := hs m (by simp)
    have hrest : ∀ x ∈ rest, (t x.data).isSome := fun x hx => hs x (by simp [hx])
    rcases ht : t m.data with - | tv
    · rw [ht] at hm
      simp at hm
    · simp only [process_base64_images]
      rcases hcf : cacheFind st.cache (cacheKeyB64 m.data) with - | cv
      · simp only [hcf, ht]
        rw [ih _ _ hrest]
        by_cases hk : cacheKeyB64 m.data = f
        · subst hk
          simp [callsWithKey, List.countP_append, List.countP_cons, cacheFind, hcf]
        · by_cases hmem : f ∈ rest.map (fun m => cacheKeyB64 m.data) <;>
            by_cases hfn : cacheFind st.cache f = none <;>
            simp [callsWithKey, List.countP_append, List.countP_cons, cacheFind,
              hk, Ne.symm hk, hmem, hfn]
      · simp only [hcf]
        rw [ih _ _ hrest]
        by_cases hk : cacheKeyB64 m.data = f
        · subst hk
          simp [hcf]
        · by_cases hmem : f ∈ rest.map (fun m => cacheKeyB64 m.data) <;>
            by_cases hfn : cacheFind st.cache f = none <;>
            simp [hmem, hfn, Ne.symm hk]

theorem pbi_count (t : List Char → Option (List Char)) (ms : List B64Match) :
    ∀ (content : List Char) (st : ScanState),
      (∀ m ∈ ms, (t m.data).isSome) →
      (process_base64_images t ms content st).2.1 = ms.length := by
  induction ms with
  | nil =>
    intro content st hs
    simp [process_base64_images]
  | cons m rest ih =>
    intro content st hs
    have hm : (t m.data).isSome := hs m (by simp)
    have hrest : ∀ x ∈ rest, (t x.data).isSome := fun x hx => hs x (by simp [hx])
    rcases ht : t m.data with - | tv
    · rw [ht] at hm
      simp at hm
    · simp only [process_base64_images]
      rcases hcf : cacheFind st.cache (cacheKeyB64 m.data) with - | cv
      · simp only [hcf, ht]
        simp [ih _ _ hrest]
      · simp only [hcf]
        simp [ih _ _ hrest]

/-- Claim C3: within one run of the image scanner over the img-tag base64
matches of a content, starting from the empty cache, and provided the
captioning service succeeds on the payloads of the run, exactly one
captioning call is issued per fingerprint occurring among the matches (the
fingerprint samples the first and last 100 characters of the payload) and
none for any other fingerprint; and every occurrence, later duplicates
included, is replaced using the (cached) transcription: the replacement
count equals the number of matches. -/
theorem c3_fingerprint_idempotent (t : List Char → Option (List Char))
    (ms : List B64Match) (content : List Char)
    (h : ∀ m ∈ ms, (t m.data).isSome) :
    (∀ f, f ∈ ms.map (fun m => cacheKeyB64 m.data) →
      callsWithKey (process_base64_images t ms content emptyScanState).2.2 f = 1) ∧
    (∀ f, f ∉ ms.map (fun m => cacheKeyB64 m.data) →
      callsWithKey (process_base64_images t ms content emptyScanState).2.2 f = 0) ∧
    (process_base64_images t ms content emptyScanState).2.1 = ms.length := by
  refine ⟨?_, ?_, pbi_count t ms content emptyScanState h⟩
  · intro f hf
    rw [pbi_calls_aux t f ms content emptyScanState h]
    simp [callsWithKey, emptyScanState, cacheFind, hf]
  · intro f hf
    rw [pbi_calls_aux t f ms content emptyScanState h]
    simp [callsWithKey, emptyScanState, cacheFind, hf]

/-- Witness for C3: the same payload appears twice among three matches;
one call per distinct fingerprint, three replacements. -/
theorem c3_fingerprint_idempotent_witness :
    (∀ f, f ∈ (([ { fullMatch := "<i>".toList, extension := "png".toList, data := "AAAA".toList }
                 , { fullMatch := "<i>".toList, extension := "png".toList, data := "AAAA".toList }
                 , { fullMatch := "<j>".toList, extension := "png".toList, data := "BBBB".toList } ] :
          List B64Match).map (fun m => cacheKeyB64 m.data)) →
      callsWithKey (process_base64_images (fun b => some ('T' :: b))
        [ { fullMatch := "<i>".toList, extension := "png".toList, data := "AAAA".toList }
        , { fullMatch := "<i>".toList, extension := "png".toList, data := "AAAA".toList }
        , { fullMatch := "<j>".toList, extension := "png".toList, data := "BBBB".toList } ]
        "z <i> <i> <j>".toList emptyScanState).2.2 f = 1) ∧
    (process_base64_images (fun b => some ('T' :: b))
        [ { fullMatch := "<i>".toList, extension := "png".toList, data := "AAAA".toList }
        , { fullMatch := "<i>".toList, extension := "png".toList, data := "AAAA".toList }
        , { fullMatch := "<j>".toList, extension := "png".toList, data := "BBBB".toList } ]
        "z <i> <i> <j>".toList emptyScanState).2.1 = 3 := by
  have h := c3_fingerprint_idempotent (fun b => some ('T' :: b))
    [ { fullMatch := "<i>".toList, extension := "png".toList, data := "AAAA".toList }
    , { fullMatch := "<i>".toList, extension := "png".toList, data := "AAAA".toList }
    , { fullMatch := "<j>".toList, extension := "png".toList, data := "BBBB".toList } ]
    ("z <i> <i> <j>".toList) (by intro m hm; simp)
  exact ⟨h.1, h.2.2⟩

/-! ### Claim C9: URL matching lemmas -/

theorem lcChar_cases (c : Char) :
    lcChar c = c ∨ (isStopChar c = false ∧ isStopChar (lcChar c) = false) := by
  by_cases h1 : c = 'A'
  · subst h1
    decide
  by_cases h2 : c = 'B'
  · subst h2
    decide
  by_cases h3 : c = 'C'
  · subst h3
    decide
  by_cases h4 : c = 'D'
  · subst h4
    decide
  by_cases h5 : c = 'E'
  · subst h5
    decide
  by_cases h6 : c = 'F'
  · subst h6
    decide
  by_cases h7 : c = 'G'
  · subst h7
    decide
  by_cases h8 : c = 'H'
  · subst h8
    decide
  by_cases h9 : c = 'I'
  · subst h9
    decide
  by_cases h10 : c = 'J'
  · subst h10
    decide
  by_cases h11 : c = 'K'
  · subst h11
    decide
  by_cases h12 : c = 'L'
  · subst h12
    decide
  by_cases h13 : c = 'M'
  · subst h13
    decide
  by_cases h14 : c = 'N'
  · subst h14
    decide
  by_cases h15 : c = 'O'
  · subst h15
    decide
  by_cases h16 : c = 'P'
  · subst h16
    decide
  by_cases h17 : c = 'Q'
  · subst h17
    decide
  by_cases h18 : c = 'R'
  · subst h18
    decide
  by_cases h19 : c = 'S'
  · subst h19
    decide
  by_cases h20 : c = 'T'
  · subst h20
    decide
  by_cases h21 : c = 'U'
  · subst h21
    decide
  by_cases h22 : c = 'V'
  · subst h22
    decide
  by_cases h23 : c = 'W'
  · subst h23
    decide
  by_cases h24 : c = 'X'
  · subst h24
    decide
  by_cases h25 : c = 'Y'
  · subst h25
    decide
  by_cases h26 : c = 'Z'
  · subst h26
    decide
  left
  unfold lcChar
  simp [h1, h2, h3, h4, h5, h6, h7, h8, h9, h10, h11, h12, h13, h14, h15, h16, h17, h18, h19, h20, h21, h22, h23, h24, h25, h26]

theorem stop_congr (c c2 : Char) (h : lcChar c = lcChar c2) :
    isStopChar c = isStopChar c2 := by
  rcases lcChar_cases c with h1 | ⟨h1a, h1b⟩ <;>
    rcases lcChar_cases c2 with h2 | ⟨h2a, h2b⟩
  · rw [h1, h2] at h
    rw [h]
  · rw [h1] at h
    rw [h, h2b, h2a]
  · rw [h2] at h
    rw [← h, h1b, h1a]
  · rw [h1a, h2a]

theorem matchLit_lockstep (p : List Char) :
    ∀ cs cs2, lowerL cs = lowerL cs2 →
      (matchLit p cs = none ∧ matchLit p cs2 = none) ∨
      (∃ m r m2 r2, matchLit p cs = some (m, r) ∧ matchLit p cs2 = some (m2, r2) ∧
        lowerL m = lowerL m2 ∧ lowerL r = lowerL r2) := by
  induction p with
  | nil =>
    intro cs cs2 h
    exact Or.inr ⟨[], cs, [], cs2, rfl, rfl, rfl, h⟩
  | cons pc ps ih =>
    intro cs cs2 h
    cases cs with
    | nil =>
      cases cs2 with
      | nil => exact Or.inl ⟨rfl, rfl⟩
      | cons c2 t2 => simp [lowerL] at h
    | cons c1 t1 =>
      cases cs2 with
      | nil => simp [lowerL] at h
      | cons c2 t2 =>
        simp only [lowerL, List.map_cons, List.cons.injEq] at h
        obtain ⟨hc, ht⟩ := h
        by_cases hd : lcChar c1 = pc
        · have hd2 : lcChar c2 = pc := by rw [← hc]; exact hd
          rcases ih t1 t2 ht with ⟨hn1, hn2⟩ | ⟨m, r, m2, r2, e1, e2, e3, e4⟩
          · exact Or.inl ⟨by simp [matchLit, hd, hn1], by simp [matchLit, hd2, hn2]⟩
          · refine Or.inr ⟨c1 :: m, r, c2 :: m2, r2,
              by simp [matchLit, hd, e1], by simp [matchLit, hd2, e2], ?_, e4⟩
            simp only [lowerL, List.map_cons, List.cons.injEq]
            exact ⟨hc, e3⟩
        · have hd2 : ¬lcChar c2 = pc := by rw [← hc]; exact hd
          exact Or.inl ⟨by simp [matchLit, hd], by simp [matchLit, hd2]⟩

theorem span_lockstep :
    ∀ cs cs2, lowerL cs = lowerL cs2 →
      lowerL (cs.takeWhile (fun c => !isStopChar c)) =
        lowerL (cs2.takeWhile (fun c => !isStopChar c)) ∧
      lowerL (cs.dropWhile (fun c => !isStopChar c)) =
        lowerL (cs2.dropWhile (fun c => !isStopChar c)) := by
  intro cs
  induction cs with
  | nil =>
    intro cs2 h
    cases cs2 with
    | nil => exact ⟨rfl, rfl⟩
    | cons c2 t2 => simp [lowerL] at h
  | cons c1 t1 ih =>
    intro cs2 h
    cases cs2 with
    | nil => simp [lowerL] at h
    | cons c2 t2 =>
      simp only [lowerL, List.map_cons, List.cons.injEq] at h
      obtain ⟨hc, ht⟩ := h
      have hstop : isStopChar c1 = isStopChar c2 := stop_congr _ _ hc
      by_cases hs1 : isStopChar c1 = true
      · have hs2 : isStopChar c2 = true := by rw [← hstop]; exact hs1
        constructor
        · simp [hs1, hs2]
        · simp [hs1, hs2, lowerL, hc, ht]
      · have hs2 : ¬isStopChar c2 = true := by rw [← hstop]; exact hs1
        obtain ⟨iht, ihd⟩ := ih t2 ht
        have iht2 : List.map lcChar (t1.takeWhile (fun c => !isStopChar c)) =
            List.map lcChar (t2.takeWhile (fun c => !isStopChar c)) := iht
        have ihd2 : List.map lcChar (t1.dropWhile (fun c => !isStopChar c)) =
            List.map lcChar (t2.dropWhile (fun c => !isStopChar c)) := ihd
        constructor
        · simp [hs1, hs2, lowerL, hc, iht2]
        · simp [hs1, hs2, lowerL, ihd2]

theorem tryPats_lockstep (pats : List (List Char)) :
    ∀ cs cs2, lowerL cs = lowerL cs2 →
      (tryPats pats cs = none ∧ tryPats pats cs2 = none) ∨
      (∃ m r m2 r2, tryPats pats cs = some (m, r) ∧ tryPats pats cs2 = some (m2, r2) ∧
        lowerL m = lowerL m2 ∧ lowerL r = lowerL r2) := by
  induction pats with
  | nil =>
    intro cs cs2 h
    exact Or.inl ⟨rfl, rfl⟩
  | cons pat pats ih =>
    intro cs cs2 h
    rcases matchLit_lockstep pat cs cs2 h with ⟨hn1, hn2⟩ | ⟨m, r, m2, r2, e1, e2, e3, e4⟩
    · rcases ih cs cs2 h with ⟨f1, f2⟩ | ⟨a, b, a2, b2, g1, g2, g3, g4⟩
      · exact Or.inl ⟨by simp [tryPats, hn1, f1], by simp [tryPats, hn2, f2]⟩
      · exact Or.inr ⟨a, b, a2, b2, by simp [tryPats, hn1, g1],
          by simp [tryPats, hn2, g2], g3, g4⟩
    · obtain ⟨htk, hdr⟩ := span_lockstep r r2 e4
      have hlen : (r.takeWhile (fun c => !isStopChar c)).length =
          (r2.takeWhile (fun c => !isStopChar c)).length := by
        have h2 := congrArg List.length htk
        simpa [lowerL] using h2
      by_cases hre : (r.takeWhile (fun c => !isStopChar c)).isEmpty
      · have hre2 : (r2.takeWhile (fun c => !isStopChar c)).isEmpty = true := by
          rw [List.isEmpty_iff_length_eq_zero] at hre ⊢
          rw [← hlen]
          exact hre
        rcases ih cs cs2 h with ⟨f1, f2⟩ | ⟨a, b, a2, b2, g1, g2, g3, g4⟩
        · exact Or.inl ⟨by simp [tryPats, e1, hre, f1], by simp [tryPats, e2, hre2, f2]⟩
        · exact Or.inr ⟨a, b, a2, b2, by simp [tryPats, e1, hre, g1],
            by simp [tryPats, e2, hre2, g2], g3, g4⟩
      · have hre2 : ¬(r2.takeWhile (fun c => !isStopChar c)).isEmpty = true := by
          rw [List.isEmpty_iff_length_eq_zero] at hre ⊢
          rw [← hlen]
          exact hre
        refine Or.inr ⟨m ++ r.takeWhile (fun c => !isStopChar c),
          r.dropWhile (fun c => !isStopChar c),
          m2 ++ r2.takeWhile (fun c => !isStopChar c),
          r2.dropWhile (fun c => !isStopChar c),
          by simp [tryPats, e1, hre], by simp [tryPats, e2, hre2], ?_, hdr⟩
        simp only [lowerL, List.map_append]
        rw [show List.map lcChar m = List.map lcChar m2 from e3,
          show List.map lcChar (r.takeWhile (fun c => !isStopChar c)) =
            List.map lcChar (r2.takeWhile (fun c => !isStopChar c)) from htk]

theorem scanAux_lockstep :
    ∀ fuel cs cs2, lowerL cs = lowerL cs2 →
      (scanAux fuel cs).map lowerL = (scanAux fuel cs2).map lowerL := by
  intro fuel
  induction fuel with
  | zero =>
    intro cs cs2 h
    simp [scanAux]
  | succ f ih =>
    intro cs cs2 h
    cases cs with
    | nil =>
      cases cs2 with
      | nil => rfl
      | cons c2 t2 => simp [lowerL] at h
    | cons c1 t1 =>
      cases cs2 with
      | nil => simp [lowerL] at h
      | cons c2 t2 =>
        rcases tryPats_lockstep urlPatHeadsL (c1 :: t1) (c2 :: t2) h with
          ⟨hn1, hn2⟩ | ⟨m, r, m2, r2, e1, e2, e3, e4⟩
        · simp only [scanAux, tryAlts, hn1, hn2]
          apply ih
          simp only [lowerL, List.map_cons, List.cons.injEq] at h
          exact h.2
        · simp only [scanAux, tryAlts, e1, e2, List.map_cons]
          rw [e3, ih r r2 e4]

theorem lowerL_length (cs : List Char) : (lowerL cs).length = cs.length := by
  simp [lowerL]

theorem scanUrls_lockstep (cs cs2 : List Char) (h : lowerL cs = lowerL cs2) :
    (scanUrls cs).map lowerL = (scanUrls cs2).map lowerL := by
  have hlen : cs.length = cs2.length := by
    rw [← lowerL_length cs, ← lowerL_length cs2, h]
  unfold scanUrls
  rw [hlen]
  exact scanAux_lockstep _ _ _ h

theorem isImageUrl_congr (a b : List Char) (h : lowerL a = lowerL b) :
    isImageUrlL a = isImageUrlL b := by
  unfold isImageUrlL
  rw [h]

theorem dedupUrls_lockstep :
    ∀ (us us2 : List (List Char)) (seen : List (List Char)),
      us.map lowerL = us2.map lowerL →
      (dedupUrls us seen).map lowerL = (dedupUrls us2 seen).map lowerL := by
  intro us
  induction us with
  | nil =>
    intro us2 seen h
    cases us2 with
    | nil => rfl
    | cons u2 r2 => simp at h
  | cons u rest ih =>
    intro us2 seen h
    cases us2 with
    | nil => simp at h
    | cons u2 rest2 =>
      simp only [List.map_cons, List.cons.injEq] at h
      obtain ⟨hu, ht⟩ := h
      by_cases hm : lowerL u ∈ seen
      · have hm2 : lowerL u2 ∈ seen := by rw [← hu]; exact hm
        simp only [dedupUrls, if_pos hm, if_pos hm2]
        exact ih rest2 seen ht
      · have hm2 : lowerL u2 ∉ seen := by rw [← hu]; exact hm
        by_cases him : isImageUrlL u = true
        · have him2 : isImageUrlL u2 = true := by
            rw [← isImageUrl_congr u u2 hu]; exact him
          simp only [dedupUrls, if_neg hm, if_neg hm2, if_pos him, if_pos him2]
          exact ih rest2 seen ht
        · have him2 : ¬isImageUrlL u2 = true := by
            rw [← isImageUrl_congr u u2 hu]; exact him
          simp only [dedupUrls, if_neg hm, if_neg hm2, if_neg him, if_neg him2,
            List.map_cons]
          rw [hu]
          exact congrArg (List.cons (lowerL u2)) (by rw [← hu]; exact ih rest2 _ ht)

theorem dedupUrls_pairwise (us : List (List Char)) :
    ∀ seen, (dedupUrls us seen).Pairwise (fun a b => lowerL a ≠ lowerL b) ∧
      ∀ v ∈ dedupUrls us seen, lowerL v ∉ seen := by
  induction us with
  | nil =>
    intro seen
    simp [dedupUrls]
  | cons u rest ih =>
    intro seen
    by_cases hm : lowerL u ∈ seen
    · simpa [dedupUrls, hm] using ih seen
    · by_cases him : isImageUrlL u = true
      · simpa [dedupUrls, hm, him] using ih seen
      · have h2 := ih (lowerL u :: seen)
        refine ⟨?_, ?_⟩
        · simp only [dedupUrls, if_neg hm, if_neg him]
          refine List.pairwise_cons.mpr ⟨?_, h2.1⟩
          intro v hv he
          exact h2.2 v hv (by simp [he])
        · intro v hv
          simp only [dedupUrls, if_neg hm, if_neg him] at hv
          rcases List.mem_cons.mp hv with rfl | hv
          · exact hm
          · intro hs
            exact h2.2 v hv (by simp [hs])

theorem dedupUrls_sublist (us : List (List Char)) :
    ∀ seen, (dedupUrls us seen).Sublist us := by
  induction us with
  | nil =>
    intro seen
    simp [dedupUrls]
  | cons u rest ih =>
    intro seen
    by_cases hm : lowerL u ∈ seen
    · simp only [dedupUrls, if_pos hm]
      exact (ih seen).cons u
    · by_cases him : isImageUrlL u = true
      · simp only [dedupUrls, if_neg hm, if_pos him]
        exact (ih seen).cons u
      · simp only [dedupUrls, if_neg hm, if_neg him]
        exact (ih (lowerL u :: seen)).cons₂ u

theorem dedupUrls_mem (us : List (List Char)) :
    ∀ seen v, v ∈ dedupUrls us seen → v ∈ us ∧ isImageUrlL v = false := by
  induction us with
  | nil =>
    intro seen v hv
    simp [dedupUrls] at hv
  | cons u rest ih =>
    intro seen v hv
    by_cases hm : lowerL u ∈ seen
    · rw [dedupUrls, if_pos hm] at hv
      obtain ⟨h1, h2⟩ := ih seen v hv
      exact ⟨by simp [h1], h2⟩
    · by_cases him : isImageUrlL u = true
      · rw [dedupUrls, if_neg hm, if_pos him] at hv
        obtain ⟨h1, h2⟩ := ih seen v hv
        exact ⟨by simp [h1], h2⟩
      · rw [dedupUrls, if_neg hm, if_neg him] at hv
        rcases List.mem_cons.mp hv with rfl | hv
        · exact ⟨by simp, by simpa using him⟩
        · obtain ⟨h1, h2⟩ := ih _ v hv
          exact ⟨by simp [h1], h2⟩

theorem dedupUrls_rep (us : List (List Char)) :
    ∀ seen u, u ∈ us → isImageUrlL u = false →
      lowerL u ∈ seen ∨ ∃ v ∈ dedupUrls us seen, lowerL v = lowerL u := by
  induction us with
  | nil =>
    intro seen u hu
    simp at hu
  | cons w rest ih =>
    intro seen u hu hni
    rcases List.mem_cons.mp hu with rfl | hu
    · by_cases hm : lowerL u ∈ seen
      · exact Or.inl hm
      · right
        simp only [dedupUrls, if_neg hm, if_neg (by simp [hni] : ¬isImageUrlL u = true)]
        exact ⟨u, by simp, rfl⟩
    · by_cases hm : lowerL w ∈ seen
      · rcases ih seen u hu hni with h | ⟨v, hv, he⟩
        · exact Or.inl h
        · exact Or.inr ⟨v, by rw [dedupUrls, if_pos hm]; exact hv, he⟩
      · by_cases him : isImageUrlL w = true
        · rcases ih seen u hu hni with h | ⟨v, hv, he⟩
          · exact Or.inl h
          · exact Or.inr ⟨v, by rw [dedupUrls, if_neg hm, if_pos him]; exact hv, he⟩
        · rcases ih (lowerL w :: seen) u hu hni with h | ⟨v, hv, he⟩
          · rcases List.mem_cons.mp h with he2 | h
            · right
              refine ⟨w, ?_, he2.symm⟩
              rw [dedupUrls, if_neg hm, if_neg him]
              simp
            · exact Or.inl h
          · refine Or.inr ⟨v, ?_, he⟩
            rw [dedupUrls, if_neg hm, if_neg him]
            simp [hv]

/-- Claim C9: URL detection is case-insensitive (texts equal up to ASCII
case yield the same detected URLs up to case); the returned list is
deduplicated case-insensitively on the full URL while preserving first-seen
order (pairwise case-distinct and a sublist of the raw match list); and a
matched URL is represented in the result exactly when its path, ignoring
the query string, does not end in a known image extension. -/
theorem c9_url_matching (s tx : List Char) (h : lowerL s = lowerL tx) :
    (detectUrlsL s).map lowerL = (detectUrlsL tx).map lowerL ∧
    (detectUrlsL s).Pairwise (fun a b => lowerL a ≠ lowerL b) ∧
    (detectUrlsL s).Sublist (scanUrls s) ∧
    ∀ u ∈ scanUrls s, (isImageUrlL u = false ↔
      ∃ v ∈ detectUrlsL s, lowerL v = lowerL u) := by
  refine ⟨?_, (dedupUrls_pairwise _ []).1, dedupUrls_sublist _ [], ?_⟩
  · unfold detectUrlsL
    exact dedupUrls_lockstep _ _ [] (scanUrls_lockstep s tx h)
  · intro u hu
    constructor
    · intro hni
      rcases dedupUrls_rep (scanUrls s) [] u hu hni with hmem | ⟨v, hv, he⟩
      · simp at hmem
      · exact ⟨v, hv, he⟩
    · rintro ⟨v, hv, he⟩
      rw [← isImageUrl_congr v u he]
      exact (dedupUrls_mem (scanUrls s) [] v hv).2

/-- Witness for C9 at two concrete case-variants of a text with one URL. -/
theorem c9_url_matching_witness :
    lowerL ("See HTTP://Ab now".toList) = lowerL ("sEE http://aB NOW".toList) ∧
    ((detectUrlsL ("See HTTP://Ab now".toList)).map lowerL =
        (detectUrlsL ("sEE http://aB NOW".toList)).map lowerL ∧
      (detectUrlsL ("See HTTP://Ab now".toList)).Pairwise
        (fun a b => lowerL a ≠ lowerL b) ∧
      (detectUrlsL ("See HTTP://Ab now".toList)).Sublist
        (scanUrls ("See HTTP://Ab now".toList)) ∧
      ∀ u ∈ scanUrls ("See HTTP://Ab now".toList), (isImageUrlL u = false ↔
        ∃ v ∈ detectUrlsL ("See HTTP://Ab now".toList), lowerL v = lowerL u)) :=
  ⟨by decide, c9_url_matching ("See HTTP://Ab now".toList)
    ("sEE http://aB NOW".toList) (by decide)⟩
